import Mathlib

/-!
Verification development for the MAPP mobile-app review pipeline.

The pipeline orchestrator lives in `main.py`.  The collaborating modules
(record normalizer, time-window filter, intent classifier) are part of the
same repository but their sources are not in the verified tree; where a
definition models one of them it is marked `Modelled from the spec:` in its
doc comment and follows the specification text (sections 3, 4.1-4.4, 6, 7).

Timestamps are modelled as seconds since the Unix epoch (`Nat`); calendar
dates as epoch-day numbers (`Nat`), with `daysFromCivil` translating a
civil (year, month, day) triple to its epoch-day number.
-/

namespace Mapp

/-- Provenance of a review record: the two supported platforms. -/
inductive Platform
  | playStore
  | appStore
deriving DecidableEq, Repr

/-- The fixed closed intent taxonomy (spec section 4.3), plus the explicit
`unclassified` fallback.  The constructor order below is also the fixed
tie-break priority order used by the classifier. -/
inductive Intent
  | bugReport
  | featureRequest
  | praise
  | complaint
  | question
  | other
  | unclassified
deriving DecidableEq, Repr

/-- A normalized review record (spec section 3, `NormalizedReview`).
`timestamp` is `none` when the source timestamp could not be parsed into a
canonical epoch-seconds value; the time-window filter drops such records. -/
structure Review where
  platform : Platform
  timestamp : Option Nat
  rating : Nat
  text : String
deriving DecidableEq, Repr

/-- Epoch-day number of a civil date (valid for years since 1583).
Standard days-from-civil computation; `daysFromCivil 1970 1 1 = 0`. -/
def daysFromCivil (y m d : Nat) : Nat :=
  let y := if m ≤ 2 then y - 1 else y
  let era := y / 400
  let yoe := y - era * 400
  let mp := (m + 9) % 12
  let doy := (153 * mp + 2) / 5 + d - 1
  let doe := yoe * 365 + yoe / 4 - yoe / 100 + doy
  era * 146097 + doe - 719468

/-- Day-granularity truncation of an epoch-seconds timestamp. -/
def dayOf (ts : Nat) : Nat := ts / 86400

/-- The inclusive per-run date window (spec section 3, `TimeWindow`):
a pair of epoch-day numbers, both bounds inclusive. -/
structure TimeWindow where
  start_date : Nat
  end_date : Nat
deriving DecidableEq, Repr

/-- Modelled from the spec: `ReviewFilter.get_date_range` (module
`mapp_review.preprocessing.filter`, not in the verified tree).  Spec
section 3: end = pipeline run date, start = end - N days. -/
def get_date_range (days runDate : Nat) : TimeWindow :=
  ⟨runDate - days, runDate⟩

/-- Whether a record falls inside the window: its timestamp parses and its
day-truncated value satisfies `start_date ≤ day ≤ end_date`. -/
def inWindow (w : TimeWindow) (r : Review) : Bool :=
  match r.timestamp with
  | none => false
  | some ts => decide (w.start_date ≤ dayOf ts) && decide (dayOf ts ≤ w.end_date)

/-- Modelled from the spec: `ReviewFilter.process_reviews` (module
`mapp_review.preprocessing.filter`, not in the verified tree).  Spec
section 4.2: retain, preserving relative order, exactly the records whose
day-truncated timestamp lies inside the window, both bounds inclusive;
unparseable timestamps are dropped, never raising. -/
def process_reviews (w : TimeWindow) (reviews : List Review) : List Review :=
  reviews.filter (inWindow w)

/-- Splits a character list into maximal whitespace-free words; `acc` holds
the (reversed) characters of the word currently being read. -/
def wordsAux : List Char → List Char → List (List Char)
  | [], acc => if acc.isEmpty then [] else [acc.reverse]
  | c :: rest, acc =>
    if c.isWhitespace then
      if acc.isEmpty then wordsAux rest [] else acc.reverse :: wordsAux rest []
    else wordsAux rest (c :: acc)

/-- Joins words with single spaces. -/
def joinWords : List (List Char) → List Char
  | [] => []
  | [w] => w
  | w :: ws => w ++ ' ' :: joinWords ws

/-- Case and whitespace normalization of review text (spec section 4.3:
classification is case-insensitive and whitespace-normalized): lower-case
the text, then collapse every run of whitespace to a single space and trim
both ends. -/
def normalizeText (s : String) : String :=
  ⟨joinWords (wordsAux (s.data.map Char.toLower) [])⟩

/-- Whether `pat` occurs as a contiguous sublist of `s`. -/
def isSubstring (pat s : List Char) : Bool :=
  s.tails.any (fun suffix => pat.isPrefixOf suffix)

/-- Modelled from the spec: the classifier's fixed trigger-phrase table
(module `mapp_review.analysis.intent_classifier`, not in the verified
tree).  Spec section 4.3: each label owns a set of trigger phrases; the
spec leaves the exact phrases to the implementer as fixed documented
policy, requiring only that a crash-like phrase triggers `bugReport`.
List order is the fixed tie-break priority order. -/
def triggers : List (Intent × List String) :=
  [(.bugReport, ["crash", "bug", "broken", "freeze", "not working"]),
   (.featureRequest, ["feature", "please add", "wish", "would be nice"]),
   (.praise, ["love", "great", "awesome", "excellent", "perfect"]),
   (.complaint, ["bad", "terrible", "hate", "worst", "annoying"]),
   (.question, ["how do", "how can", "why", "where is"]),
   (.other, ["update", "version", "account"])]

/-- Number of a label's trigger phrases occurring in the normalized text. -/
def score (phrases : List String) (t : String) : Nat :=
  (phrases.filter (fun p => isSubstring p.data t.data)).length

/-- Modelled from the spec: label selection over already-normalized text
(spec section 4.3).  The label with the highest match count wins; ties are
broken by the fixed priority order of `triggers` (the fold keeps the
earlier label unless a strictly higher score appears); zero matches across
all labels yields `unclassified`. -/
def classifyNorm (t : String) : Intent :=
  (triggers.foldl
    (fun best lp => if score lp.2 t > best.2 then (lp.1, score lp.2 t) else best)
    (Intent.unclassified, 0)).1

/-- Modelled from the spec: classification of one review text (spec
section 4.3) — a pure function of the text after case and whitespace
normalization. -/
def classify_intent (text : String) : Intent :=
  classifyNorm (normalizeText text)

/-- All seven intent labels, in taxonomy priority order; the summary keys. -/
def allIntents : List Intent :=
  [.bugReport, .featureRequest, .praise, .complaint, .question, .other, .unclassified]

/-- Modelled from the spec: the aggregate frequency summary (spec
section 3, `IntentSummary`) — one entry per taxonomy label, including the
`unclassified` bucket, each paired with its frequency among the labels. -/
def intentSummary (labels : List Intent) : List (Intent × Nat) :=
  allIntents.map (fun l => (l, labels.count l))

/-- Modelled from the spec: `perform_intent_classification` (module
`mapp_review.analysis.intent_classifier`, not in the verified tree).
Spec section 4.3: returns a new collection with `intent` populated for
every record, plus the `IntentSummary` tally over the whole collection. -/
def perform_intent_classification (df : List Review) :
    List (Review × Intent) × List (Intent × Nat) :=
  let labeled := df.map (fun r => (r, classify_intent r.text))
  (labeled, intentSummary (labeled.map Prod.snd))

/-- A raw per-platform review record (spec section 3, `RawReview`): the
three fields the core requires.  `timestamp` holds the canonical
epoch-seconds value when the source timestamp is parseable, `none`
otherwise. -/
structure RawReview where
  text : String
  timestamp : Option Nat
  rating : Nat
deriving DecidableEq, Repr

/-- Failure modes of record normalization (spec sections 4.1 and 7). -/
inductive MalformedRecordError
  | unparseableTimestamp
  | ratingOutOfBounds
deriving DecidableEq, Repr

/-- Modelled from the spec: the per-platform rating rescaling policy (spec
section 4.1; left to the implementer as fixed documented policy).  Both
platforms use a native five-star scale, which maps 1:1 onto the unified
1-5 scale, the spec's own example for five-star sources. -/
def ratingMap (p : Platform) (r : Nat) : Nat :=
  match p with
  | .playStore => r
  | .appStore => r

/-- Modelled from the spec: the record normalizer (spec section 4.1, not in
the verified tree).  Produces exactly one normalized review, or fails with
`MalformedRecordError` when the timestamp cannot be parsed or the rating
is outside the platform's 1-5 bound. -/
def normalize_review (p : Platform) (raw : RawReview) :
    Except MalformedRecordError Review :=
  match raw.timestamp with
  | none => .error .unparseableTimestamp
  | some ts =>
    if 1 ≤ raw.rating ∧ raw.rating ≤ 5 then
      .ok ⟨p, some ts, ratingMap p raw.rating, raw.text⟩
    else
      .error .ratingOutOfBounds

/-- The downstream steps `main` invokes after filtering (main.py steps
6-10): two CSV exports, the summary chart, the word cloud, intent
classification, and the HTML report. -/
inductive StepName
  | saveCsv
  | summaryChart
  | wordcloud
  | intentClassification
  | saveCsvWithIntents
  | htmlReport
deriving DecidableEq, Repr

/-- One downstream invocation, recording the date window passed to it. -/
structure StepCall where
  step : StepName
  window : TimeWindow
deriving DecidableEq, Repr

/-- How a run of `main` ends: `fatal` when an exception reaches the
top-level handler (main.py lines 110-112: it is printed and re-raised, so
the run aborts), `emptyResult` for the early return at lines 84-86, and
`completed` for a full pipeline run. -/
inductive Outcome
  | fatal (msg : String)
  | emptyResult
  | completed
deriving DecidableEq, Repr

/-- The observable result of one run of `main`: its outcome, the filtered
collection it worked on, and the downstream calls it made, each with the
date window it was handed. -/
structure MainResult where
  outcome : Outcome
  df : List Review
  trace : List StepCall
deriving DecidableEq, Repr

/-- Merging the two per-platform batches (main.py line 53:
`all_reviews = playstore_reviews + appstore_reviews`). -/
def all_reviews (playstore_reviews appstore_reviews : List Review) : List Review :=
  playstore_reviews ++ appstore_reviews

/-- The pipeline orchestrator, `main` of main.py.  Each adapter call is an
`Except`: per spec section 6 an adapter raises only for unrecoverable
transport failure, modelled as `.error`.  The whole body sits in one
`try`/`except` that prints and re-raises (lines 110-112), so an exception
from either crawler makes the run `fatal`; the App Store crawler runs only
if the Play Store call returned.  After merging, the collection is
filtered; an empty result returns early (lines 84-86) before any
downstream step; otherwise steps 6-10 all receive the `start_date`,
`end_date` pair computed once at line 35. -/
def main (days runDate : Nat)
    (playstore appstore : Except String (List Review)) : MainResult :=
  let w := get_date_range days runDate
  match playstore with
  | .error e => ⟨.fatal e, [], []⟩
  | .ok playstore_reviews =>
    match appstore with
    | .error e => ⟨.fatal e, [], []⟩
    | .ok appstore_reviews =>
      let reviews := all_reviews playstore_reviews appstore_reviews
      let df := process_reviews w reviews
      if df.isEmpty then ⟨.emptyResult, [], []⟩
      else
        ⟨.completed, df,
         [⟨.saveCsv, w⟩, ⟨.summaryChart, w⟩, ⟨.wordcloud, w⟩,
          ⟨.intentClassification, w⟩, ⟨.saveCsvWithIntents, w⟩, ⟨.htmlReport, w⟩]⟩

/-- Ten concrete App Store records inside the window of a run with
`days = 7` and run date 19850 (epoch days; 2024-05-07). -/
def tenAppStoreReviews : List Review :=
  [⟨.appStore, some (19844 * 86400 + 100), 5, "r1"⟩,
   ⟨.appStore, some (19844 * 86400 + 200), 4, "r2"⟩,
   ⟨.appStore, some (19845 * 86400 + 300), 3, "r3"⟩,
   ⟨.appStore, some (19845 * 86400 + 400), 2, "r4"⟩,
   ⟨.appStore, some (19846 * 86400 + 500), 1, "r5"⟩,
   ⟨.appStore, some (19847 * 86400 + 600), 5, "r6"⟩,
   ⟨.appStore, some (19848 * 86400 + 700), 4, "r7"⟩,
   ⟨.appStore, some (19849 * 86400 + 800), 3, "r8"⟩,
   ⟨.appStore, some (19850 * 86400 + 900), 2, "r9"⟩,
   ⟨.appStore, some (19850 * 86400 + 999), 1, "r10"⟩]

/-- One concrete in-window Play Store record for the same run. -/
def sampleReview : Review := ⟨.playStore, some (19844 * 86400 + 3600), 5, "great app"⟩

/-- Helper: the seven per-label counts of the summary sum to the number of
labels tallied, because each label value is counted by exactly one of the
seven taxonomy buckets. -/
theorem sum_counts (labels : List Intent) :
    (allIntents.map (fun l => labels.count l)).sum = labels.length := by
  induction labels with
  | nil => decide
  | cons x xs ih =>
    simp only [allIntents, List.map_cons, List.map_nil, List.sum_cons, List.sum_nil,
      List.count_cons] at ih ⊢
    cases x <;> simp <;> omega

/-- Helper: window membership unfolded — the timestamp parses and its
day-truncated value lies between the two inclusive bounds. -/
theorem inWindow_iff (w : TimeWindow) (r : Review) :
    inWindow w r = true ↔
      ∃ ts, r.timestamp = some ts ∧ w.start_date ≤ dayOf ts ∧ dayOf ts ≤ w.end_date := by
  cases h : r.timestamp with
  | none => simp [inWindow, h]
  | some ts => simp [inWindow, h]

/-- C1 (counterexample): with the Play Store adapter raising a transport
failure and the App Store adapter returning ten in-window records, the run
ends fatal (the exception is reported and re-raised), makes no downstream
calls, and produces no collection — it does not proceed with the other
platform's data, refuting the claim that a single adapter failure yields a
partial run and that only a double failure is fatal. -/
theorem adapter_failure_aborts_cex :
    (main 7 19850 (Except.error "transport failure") (Except.ok tenAppStoreReviews)).outcome
        = Outcome.fatal "transport failure" ∧
    (main 7 19850 (Except.error "transport failure") (Except.ok tenAppStoreReviews)).trace
        = [] ∧
    (main 7 19850 (Except.error "transport failure") (Except.ok tenAppStoreReviews)).df
        = [] :=
  ⟨rfl, rfl, rfl⟩

/-- C1 (amended): if either adapter raises a transport failure the run
escalates to a fatal outcome — main.py's single top-level handler prints
and re-raises, regardless of what the other platform returned; the
pipeline proceeds past collection only when no adapter raises, e.g. when a
failing platform contributes an empty batch, in which case the run ends in
a graceful empty-result stop or a completed run, never a fatal one. -/
theorem adapter_failure_behavior (d rd : Nat) (e : String)
    (r : Except String (List Review)) (ps bs : List Review) :
    (main d rd (Except.error e) r).outcome = Outcome.fatal e ∧
    (main d rd (Except.ok bs) (Except.error e)).outcome = Outcome.fatal e ∧
    ((main d rd (Except.ok []) (Except.ok ps)).outcome = Outcome.emptyResult ∨
     (main d rd (Except.ok []) (Except.ok ps)).outcome = Outcome.completed) := by
  refine ⟨rfl, rfl, ?_⟩
  rw [main]
  split <;> simp

/-- C2: when the post-filter collection of the merged batches is empty,
main returns early with the empty-result outcome and makes no downstream
calls — in particular the intent classifier is never invoked. -/
theorem empty_result_skips_classifier (d rd : Nat) (ps as_ : List Review)
    (h : process_reviews (get_date_range d rd) (all_reviews ps as_) = []) :
    (main d rd (Except.ok ps) (Except.ok as_)).outcome = Outcome.emptyResult ∧
    (main d rd (Except.ok ps) (Except.ok as_)).trace = [] ∧
    StepName.intentClassification ∉
      ((main d rd (Except.ok ps) (Except.ok as_)).trace.map StepCall.step) := by
  rw [main]
  simp [h]

/-- C2 (witness): a run in which both adapters return zero records ends in
the empty-result outcome with no downstream calls. -/
theorem empty_result_skips_classifier_witness :
    (main 7 19850 (Except.ok []) (Except.ok [])).outcome = Outcome.emptyResult ∧
    (main 7 19850 (Except.ok []) (Except.ok [])).trace = [] :=
  ⟨(empty_result_skips_classifier 7 19850 [] [] (by decide)).1,
   (empty_result_skips_classifier 7 19850 [] [] (by decide)).2.1⟩

/-- C3: for every collection handed to the classifier, the IntentSummary's
per-label counts sum exactly to the collection's size, and the summary
always carries an explicit `unclassified` bucket. -/
theorem intent_summary_counts_total (df : List Review) :
    ((perform_intent_classification df).2.map Prod.snd).sum = df.length ∧
    Intent.unclassified ∈ (perform_intent_classification df).2.map Prod.fst := by
  constructor
  · show ((intentSummary _).map Prod.snd).sum = _
    rw [intentSummary, List.map_map]
    have h := sum_counts ((df.map (fun r => (r, classify_intent r.text))).map Prod.snd)
    simp only [List.map_map] at h ⊢
    simpa using h
  · simp [perform_intent_classification, intentSummary, allIntents]

/-- C4: intent classification is a pure function of the review text after
case and whitespace normalization — any two texts with the same normalized
form receive the identical label. -/
theorem classification_deterministic (t1 t2 : String)
    (h : normalizeText t1 = normalizeText t2) :
    classify_intent t1 = classify_intent t2 := by
  rw [classify_intent, classify_intent, h]

/-- C4 (witness): two texts differing only in case and whitespace are
classified identically. -/
theorem classification_deterministic_witness :
    classify_intent "The  APP Crashes" = classify_intent " the app crashes " :=
  classification_deterministic _ _ (by decide)

/-- C5: the time-window filter returns an order-preserving sub-collection
holding exactly the records whose day-truncated timestamp lies between the
inclusive bounds; concretely, with window 2024-05-01 to 2024-05-07 a
record at 2024-05-01T00:00:00 is retained and a record one second earlier
(2024-04-30T23:59:59) is dropped. -/
theorem filter_window_characterization (w : TimeWindow) (rs : List Review) :
    (process_reviews w rs).Sublist rs ∧
    (∀ r, r ∈ process_reviews w rs ↔
      r ∈ rs ∧ ∃ ts, r.timestamp = some ts ∧
        w.start_date ≤ dayOf ts ∧ dayOf ts ≤ w.end_date) ∧
    process_reviews ⟨daysFromCivil 2024 5 1, daysFromCivil 2024 5 7⟩
      [⟨.playStore, some (daysFromCivil 2024 5 1 * 86400), 5, "a"⟩,
       ⟨.appStore, some (daysFromCivil 2024 5 1 * 86400 - 1), 4, "b"⟩]
      = [⟨.playStore, some (daysFromCivil 2024 5 1 * 86400), 5, "a"⟩] := by
  refine ⟨List.filter_sublist rs, ?_, by decide⟩
  intro r
  rw [process_reviews, List.mem_filter, inWindow_iff]

/-- C6: the merged collection built at main.py line 53 lists the whole
Play Store batch, in its original order, before the whole App Store
batch. -/
theorem merge_order_invariant (playstore_reviews appstore_reviews : List Review) :
    (all_reviews playstore_reviews appstore_reviews).take playstore_reviews.length
        = playstore_reviews ∧
    (all_reviews playstore_reviews appstore_reviews).drop playstore_reviews.length
        = appstore_reviews :=
  ⟨List.take_left playstore_reviews appstore_reviews,
   List.drop_left playstore_reviews appstore_reviews⟩

/-- C7: the time-window filter is idempotent — re-filtering an already
filtered collection with the same window returns it unchanged. -/
theorem filter_idempotent (w : TimeWindow) (rs : List Review) :
    process_reviews w (process_reviews w rs) = process_reviews w rs := by
  simp [process_reviews, List.filter_filter]

/-- C8: normalization is total on raw records with a parseable timestamp
and an in-range rating, and the per-platform rating rescaling map is
monotonic. -/
theorem normalization_total_monotonic (p : Platform) (raw : RawReview)
    (h1 : raw.timestamp.isSome = true) (h2 : 1 ≤ raw.rating) (h3 : raw.rating ≤ 5) :
    (normalize_review p raw).isOk = true ∧
    (∀ r1 r2 : Nat, r1 ≤ r2 → ratingMap p r1 ≤ ratingMap p r2) := by
  constructor
  · cases hts : raw.timestamp with
    | none => rw [hts] at h1; simp at h1
    | some ts =>
      rw [normalize_review, hts]
      simp [h2, h3, Except.isOk, Except.toBool]
  · intro r1 r2 h
    cases p <;> simpa [ratingMap] using h

/-- C8 (witness): a concrete valid Play Store record normalizes
successfully, and the rescaling map is monotone at a concrete rating
pair. -/
theorem normalization_total_monotonic_witness :
    (normalize_review Platform.playStore ⟨"good app", some 1714521600, 4⟩).isOk = true ∧
    ratingMap Platform.playStore 2 ≤ ratingMap Platform.playStore 4 :=
  ⟨(normalization_total_monotonic Platform.playStore ⟨"good app", some 1714521600, 4⟩
      (by decide) (by decide) (by decide)).1,
   (normalization_total_monotonic Platform.playStore ⟨"good app", some 1714521600, 4⟩
      (by decide) (by decide) (by decide)).2 2 4 (by decide)⟩

/-- C9: an empty review text is classified as `unclassified`; the
classifier is a total function, so no error can be raised. -/
theorem empty_text_unclassified :
    classify_intent "" = Intent.unclassified := by decide

/-- C10: the date window is computed once per run from the configured day
count and run date, and every downstream call in the run's trace — CSV
exports, summary chart, word cloud, intent classification, HTML report —
receives exactly that window. -/
theorem window_computed_once_consistent (d rd : Nat)
    (pr ar : Except String (List Review)) (c : StepCall)
    (h : c ∈ (main d rd pr ar).trace) :
    c.window = get_date_range d rd := by
  cases pr with
  | error e => rw [main] at h; simp at h
  | ok ps =>
    cases ar with
    | error e => rw [main] at h; simp at h
    | ok as_ =>
      rw [main] at h
      split at h
      · simp at h
      · simp only [List.mem_cons, List.not_mem_nil, or_false] at h
        rcases h with rfl | rfl | rfl | rfl | rfl | rfl <;> rfl

/-- C10 (witness): in a concrete completed run the first CSV export
receives the once-computed window. -/
theorem window_computed_once_consistent_witness :
    (StepCall.mk StepName.saveCsv (get_date_range 7 19850)).window = get_date_range 7 19850 :=
  window_computed_once_consistent 7 19850 (Except.ok [sampleReview]) (Except.ok [])
    ⟨StepName.saveCsv, get_date_range 7 19850⟩ (by decide)

end Mapp
